import Mathlib

/-!
Shallow embedding of `chatbot.py` (a LangChain/Anthropic chatbot with a
Streamlit widget front end and a terminal front end), together with proofs
of the specification's claims about its conversation-session core.

The embedding models:
  * the chat-message dictionaries `{"role": ..., "content": ...}` kept in
    `st.session_state.messages` (widget) and `CLIChatbot.chat_history`
    (terminal) as `Msg`;
  * `ChatbotConfig`, `AnthropicChatbot.setup_llm` (reading
    `ANTHROPIC_API_KEY`), the prompt template of `setup_prompt_template`,
    and the history conversion plus chain invocation of `get_response`;
  * one pass of the widget's chat-input block (`main`, lines 163-177) as
    `widgetSubmit`, the sidebar clear button (line 139) as `widgetClear`,
    and one iteration of `CLIChatbot.run`'s loop (lines 204-226) as
    `cliStep`;
  * the `__main__` startup/fallback logic (lines 257-271) as `startup`,
    taking the module-level `import streamlit as st` (line 6) into account.

The remote model call (`self.chain.invoke` past template rendering) is an
external collaborator; it is abstracted as a function from the rendered
message list to `Except String String` (exception message, or reply text).
-/

/-- One chat turn as stored by both front ends: a Python dict
`{"role": r, "content": c}`. -/
structure Msg where
  role : String
  content : String
deriving DecidableEq, Repr

/-- LangChain message objects: `SystemMessage`, `HumanMessage`, `AIMessage`
(the constructors used in `setup_prompt_template` and `get_response`). -/
inductive LCMessage where
  | system (content : String)
  | human (content : String)
  | ai (content : String)
deriving DecidableEq, Repr

/-- `ChatbotConfig` (chatbot.py lines 17-23): model name, temperature,
max tokens and system prompt. The Python temperature is a float that is
only stored and passed along, never computed with; it is modelled as a
rational. -/
structure ChatbotConfig where
  model_name : String
  temperature : Rat
  max_tokens : Nat
  system_prompt : String
deriving DecidableEq, Repr

/-- The defaults assigned in `ChatbotConfig.__init__`. -/
def ChatbotConfig.default : ChatbotConfig :=
  { model_name := "claude-3-sonnet-20240229"
    temperature := 7 / 10
    max_tokens := 1000
    system_prompt := "You are a helpful AI assistant. You are knowledgeable, friendly, and aim to provide accurate and helpful responses. You can engage in conversations on a wide variety of topics." }

/-- The `ChatAnthropic` client constructed by `setup_llm`: the generation
parameters and the credential it was given. -/
structure LLM where
  model : String
  temperature : Rat
  max_tokens : Nat
  anthropic_api_key : String
deriving DecidableEq, Repr

/-- `AnthropicChatbot.setup_llm` (lines 33-44): read `ANTHROPIC_API_KEY`
from the environment (`none` models an unset variable); `if not api_key`
is true exactly when the variable is unset or holds the empty string, and
then a `ValueError` is raised; otherwise the client is built from the
configuration and the key. -/
def setup_llm (env_api_key : Option String) (config : ChatbotConfig) :
    Except String LLM :=
  match env_api_key with
  | none => .error "ANTHROPIC_API_KEY environment variable is required"
  | some api_key =>
    if api_key = "" then
      .error "ANTHROPIC_API_KEY environment variable is required"
    else
      .ok { model := config.model_name
            temperature := config.temperature
            max_tokens := config.max_tokens
            anthropic_api_key := api_key }

/-- An `AnthropicChatbot` instance after `__init__` succeeded: its
configuration and the LLM client; the prompt template and chain are fully
determined by `config.system_prompt`. -/
structure AnthropicChatbot where
  config : ChatbotConfig
  llm : LLM
deriving DecidableEq, Repr

/-- `AnthropicChatbot.__init__` (lines 27-31): runs `setup_llm` first, so
construction fails with the `ValueError` of `setup_llm` and produces no
object when the credential check fails. -/
def AnthropicChatbot.make (env_api_key : Option String)
    (config : ChatbotConfig) : Except String AnthropicChatbot :=
  (setup_llm env_api_key config).map fun llm => { config := config, llm := llm }

/-- The history conversion inside `get_response` (lines 64-69): a dict with
role `"user"` becomes a `HumanMessage`; any other role becomes an
`AIMessage`. -/
def convertHistory (chat_history : List Msg) : List LCMessage :=
  chat_history.map fun msg =>
    if msg.role = "user" then .human msg.content else .ai msg.content

/-- The message sequence rendered by the prompt template of
`setup_prompt_template` (lines 46-52) when the chain is invoked with
`input` and `chat_history`: the `SystemMessage` holding the system prompt,
then the converted history in order, then one trailing `HumanMessage`
holding the input. -/
def assembleMessages (system_prompt : String) (chat_history : List Msg)
    (input_text : String) : List LCMessage :=
  LCMessage.system system_prompt :: (convertHistory chat_history ++ [.human input_text])

/-- The external model boundary: `prompt | llm | StrOutputParser` past
template rendering. Given the rendered messages it returns the reply text,
or the message of the exception it raised. -/
abbrev Invoker := List LCMessage → Except String String

/-- `AnthropicChatbot.get_response` (lines 58-76): default the history to
`[]` when `None` was passed, convert it, render the template and invoke
the chain. -/
def get_response (bot : AnthropicChatbot) (invoke : Invoker)
    (user_input : String) (chat_history : Option (List Msg)) :
    Except String String :=
  invoke (assembleMessages bot.config.system_prompt (chat_history.getD []) user_input)

/-- What the widget renders after one pass of its chat-input block. -/
inductive WidgetOutput where
  | nothing
  | reply (text : String)
  | errorShown (text : String)
deriving DecidableEq, Repr

/-- One pass of the widget's chat-input block (`main`, lines 163-177).
`st.chat_input` yields `none` when nothing was entered; the walrus test
`if prompt :=` also rejects the empty string (falsy) but nothing else.
On truthy input: append the user dict, call
`get_response(prompt, st.session_state.messages[:-1])` (the history as it
was before the append), and on success append the assistant dict; an
exception is caught and rendered via `st.error`. -/
def widgetSubmit (bot : AnthropicChatbot) (invoke : Invoker)
    (messages : List Msg) (chat_input : Option String) :
    List Msg × WidgetOutput :=
  match chat_input with
  | none => (messages, .nothing)
  | some p =>
    if p = "" then (messages, .nothing)
    else
      let messages1 := messages ++ [⟨"user", p⟩]
      match get_response bot invoke p (some messages1.dropLast) with
      | .ok response => (messages1 ++ [⟨"assistant", response⟩], .reply response)
      | .error e => (messages1, .errorShown ("Error: " ++ e))

/-- The sidebar `Clear Chat History` button (line 139): replaces
`st.session_state.messages` by the empty list. -/
def widgetClear (_messages : List Msg) : List Msg := []

/-- Python's `str.lower()` (ASCII fragment, which covers every string the
program compares): lowercase each character. -/
def pyLower (s : String) : String := ⟨s.data.map Char.toLower⟩

/-- Python's `str.strip()`: drop leading and trailing whitespace. -/
def pyStrip (s : String) : String :=
  ⟨((s.data.dropWhile Char.isWhitespace).reverse.dropWhile Char.isWhitespace).reverse⟩

/-- What one iteration of `CLIChatbot.run`'s loop does besides updating
the history. -/
inductive CLIAction where
  | quit
  | cleared
  | skipped
  | replied (text : String)
  | errored (text : String)
deriving DecidableEq, Repr

/-- One iteration of the `while True` loop of `CLIChatbot.run`
(lines 204-226): strip the raw input; lowercased `quit` breaks the loop,
lowercased `clear` resets the history to `[]`, empty input is skipped;
otherwise call `get_response(user_input, self.chat_history)` and only on
success append the user dict and the assistant dict (the exception branch
prints the error and leaves the history untouched). -/
def cliStep (bot : AnthropicChatbot) (invoke : Invoker)
    (chat_history : List Msg) (raw_input : String) :
    List Msg × CLIAction :=
  let user_input := pyStrip raw_input
  if pyLower user_input = "quit" then (chat_history, .quit)
  else if pyLower user_input = "clear" then ([], .cleared)
  else if user_input = "" then (chat_history, .skipped)
  else
    match get_response bot invoke user_input (some chat_history) with
    | .ok response =>
      (chat_history ++ [⟨"user", user_input⟩, ⟨"assistant", response⟩], .replied response)
    | .error e => (chat_history, .errored ("Error: " ++ e))

/-- `CLIChatbot.__init__` (lines 193-196) starts with an empty history. -/
def cliInitialHistory : List Msg := []

/-- A terminal session: the bot (holding the configuration and client) and
the mutable `chat_history`; `CLIChatbot.run` assigns only `chat_history`. -/
structure CLISession where
  bot : AnthropicChatbot
  chat_history : List Msg
deriving DecidableEq, Repr

/-- One loop iteration at session level: only `chat_history` is updated. -/
def CLISession.step (s : CLISession) (invoke : Invoker) (raw_input : String) :
    CLISession × CLIAction :=
  let r := cliStep s.bot invoke s.chat_history raw_input
  ({ s with chat_history := r.1 }, r.2)

/-- A widget session: the bot and `st.session_state.messages`. -/
structure WidgetSession where
  bot : AnthropicChatbot
  messages : List Msg
deriving DecidableEq, Repr

/-- One pass of the widget chat-input block at session level. -/
def WidgetSession.step (s : WidgetSession) (invoke : Invoker)
    (chat_input : Option String) : WidgetSession × WidgetOutput :=
  let r := widgetSubmit s.bot invoke s.messages chat_input
  ({ s with messages := r.1 }, r.2)

/-- The sidebar clear button at session level. -/
def WidgetSession.clearButton (s : WidgetSession) : WidgetSession :=
  { s with messages := widgetClear s.messages }

/-- An event driving one CLI loop iteration: the raw line read from stdin
together with the behaviour of the external model call during that
iteration. -/
abbrev CLIEvent := String × Invoker

/-- Running `CLIChatbot.run`'s loop over a list of events, stopping at
`quit` exactly as the `break` statement does; returns the final
`chat_history`. -/
def cliRun (bot : AnthropicChatbot) : List CLIEvent → List Msg → List Msg
  | [], h => h
  | e :: rest, h =>
    match cliStep bot e.2 h e.1 with
    | (h1, .quit) => h1
    | (h1, _) => cliRun bot rest h1

/-- The alternation invariant of the CLI history: the list is a sequence
of adjacent pairs, a `"user"` turn followed by an `"assistant"` turn. -/
def evenAlt : List Msg → Bool
  | [] => true
  | u :: a :: rest => u.role == "user" && a.role == "assistant" && evenAlt rest
  | [_] => false

/-- How the process starts (lines 257-271), taking module loading into
account: the module-level `import streamlit as st` on line 6 runs before
anything else, so when streamlit is not importable the process dies with
an uncaught `ImportError` and the `__main__` `try`/`except ImportError`
never runs. When the module loads, `main()` is called; if it raises, the
`except Exception` branch runs the CLI front end. -/
inductive StartupResult where
  | ranWidget
  | ranTerminal
  | uncaughtImportError
deriving DecidableEq, Repr

/-- The startup selection between front ends; `streamlitImportable` says
whether `import streamlit` succeeds, `mainRaises` whether `main()` raises
an exception inside the `try` block. -/
def startup (streamlitImportable : Bool) (mainRaises : Bool) : StartupResult :=
  if !streamlitImportable then .uncaughtImportError
  else if mainRaises then .ranTerminal
  else .ranWidget

/-- A concrete chatbot instance for witnesses and counterexamples, as
produced by `AnthropicChatbot.make (some "k") ChatbotConfig.default`. -/
def sampleBot : AnthropicChatbot :=
  { config := ChatbotConfig.default
    llm := { model := ChatbotConfig.default.model_name
             temperature := ChatbotConfig.default.temperature
             max_tokens := ChatbotConfig.default.max_tokens
             anthropic_api_key := "k" } }

/-- Modelled from the spec: the role-for-role mapping of a transcript
turn to a LangChain message required by "followed by every prior turn in
the transcript in original order (mapped role-for-role)"; compared with
the source's `convertHistory`. -/
def rolePreservingMsg (m : Msg) : LCMessage :=
  match m.role with
  | "user" => .human m.content
  | "assistant" => .ai m.content
  | _ => .system m.content

/-! Helper lemmas shared by the claim proofs. -/

/-- On a history whose roles are all `"user"` or `"assistant"`, the
conversion of `get_response` is exactly the role-for-role mapping. -/
theorem convertHistory_eq_rolePreserving (h : List Msg)
    (hroles : ∀ m ∈ h, m.role = "user" ∨ m.role = "assistant") :
    convertHistory h = h.map rolePreservingMsg := by
  induction h with
  | nil => rfl
  | cons m rest ih =>
    have hm := hroles m (List.mem_cons_self m rest)
    have hrest : ∀ x ∈ rest, x.role = "user" ∨ x.role = "assistant" :=
      fun x hx => hroles x (List.mem_cons_of_mem m hx)
    obtain ⟨role, content⟩ := m
    unfold convertHistory at ih ⊢
    simp only [List.map_cons, ih hrest]
    rcases hm with hr | hr <;>
      · simp only at hr
        subst hr
        rfl

/-! The claims. -/

/-- C1: for every non-empty user text that reaches a submit, when the
model call succeeds the transcript grows by exactly 2, with the user turn
holding the text appended first and the assistant turn holding the
returned text appended second, in both the widget and the terminal
variant. -/
theorem c1_submit_success_appends_two (bot : AnthropicChatbot)
    (messages chat_history : List Msg) (t r : String)
    (hne : t ≠ "") (htrim : pyStrip t = t)
    (hq : pyLower t ≠ "quit") (hc : pyLower t ≠ "clear") :
    (widgetSubmit bot (fun _ => .ok r) messages (some t)).1
        = messages ++ [⟨"user", t⟩, ⟨"assistant", r⟩]
    ∧ (widgetSubmit bot (fun _ => .ok r) messages (some t)).1.length
        = messages.length + 2
    ∧ (cliStep bot (fun _ => .ok r) chat_history t).1
        = chat_history ++ [⟨"user", t⟩, ⟨"assistant", r⟩]
    ∧ (cliStep bot (fun _ => .ok r) chat_history t).1.length
        = chat_history.length + 2 := by
  refine ⟨?_, ?_, ?_, ?_⟩ <;>
    simp [widgetSubmit, cliStep, get_response, hne, htrim, hq, hc]

/-- Witness for C1: input "hi" with reply "ok" on empty transcripts. -/
theorem c1_submit_success_appends_two_witness :
    (widgetSubmit sampleBot (fun _ => .ok "ok") [] (some "hi")).1
        = [⟨"user", "hi"⟩, ⟨"assistant", "ok"⟩]
    ∧ (cliStep sampleBot (fun _ => .ok "ok") [] "hi").1
        = [⟨"user", "hi"⟩, ⟨"assistant", "ok"⟩] := by
  have h := c1_submit_success_appends_two sampleBot [] [] "hi" "ok"
    (by decide) (by decide) (by decide) (by decide)
  exact ⟨by simpa using h.1, by simpa using h.2.2.1⟩

/-- C2 counterexample: in the terminal variant a failing model call leaves
the history entirely unchanged — the just-appended user turn the claim
requires is not there, because `CLIChatbot.run` appends the user dict only
after a successful call. -/
theorem c2_counterexample :
    (cliStep sampleBot (fun _ => .error "boom")
        [⟨"user", "a"⟩, ⟨"assistant", "b"⟩] "hi").1
      = [⟨"user", "a"⟩, ⟨"assistant", "b"⟩]
    ∧ Msg.mk "user" "hi" ∉ (cliStep sampleBot (fun _ => .error "boom")
        [⟨"user", "a"⟩, ⟨"assistant", "b"⟩] "hi").1 := by
  exact ⟨rfl, by decide⟩

/-- C2 amended: on model failure neither variant appends an assistant
turn and both catch the exception and surface it as an error message; the
widget variant retains the just-appended user turn, while the terminal
variant leaves the transcript entirely unchanged (it appends the user turn
only after a successful call). -/
theorem c2_failure_behaviour (bot : AnthropicChatbot)
    (messages chat_history : List Msg) (t e : String)
    (hne : t ≠ "") (htrim : pyStrip t = t)
    (hq : pyLower t ≠ "quit") (hc : pyLower t ≠ "clear") :
    widgetSubmit bot (fun _ => .error e) messages (some t)
        = (messages ++ [⟨"user", t⟩], .errorShown ("Error: " ++ e))
    ∧ cliStep bot (fun _ => .error e) chat_history t
        = (chat_history, .errored ("Error: " ++ e)) := by
  constructor <;> simp [widgetSubmit, cliStep, get_response, hne, htrim, hq, hc]

/-- Witness for C2 amended: input "hi", exception "boom". -/
theorem c2_failure_behaviour_witness :
    widgetSubmit sampleBot (fun _ => .error "boom") [] (some "hi")
        = ([⟨"user", "hi"⟩], .errorShown "Error: boom")
    ∧ cliStep sampleBot (fun _ => .error "boom") [] "hi"
        = ([], .errored "Error: boom") := by
  have h := c2_failure_behaviour sampleBot [] [] "hi" "boom"
    (by decide) (by decide) (by decide) (by decide)
  exact ⟨by simpa using h.1, by simpa using h.2⟩

/-- C5: constructing a chatbot fails with the configuration error exactly
when the value read from `ANTHROPIC_API_KEY` is unset or empty, and
produces a chatbot object exactly otherwise; the check runs in the
constructor, before any submit. -/
theorem c5_construction_fails_iff_key_missing
    (env : Option String) (config : ChatbotConfig) :
    (AnthropicChatbot.make env config
        = .error "ANTHROPIC_API_KEY environment variable is required"
      ↔ (env = none ∨ env = some ""))
    ∧ ((∃ bot, AnthropicChatbot.make env config = .ok bot)
      ↔ ¬(env = none ∨ env = some "")) := by
  cases env with
  | none => simp [AnthropicChatbot.make, setup_llm, Except.map]
  | some k =>
    by_cases hk : k = "" <;>
      simp [AnthropicChatbot.make, setup_llm, hk, Except.map]

/-- Witness for C5: an unset variable yields the configuration error, the
key "k" yields a chatbot. -/
theorem c5_construction_fails_iff_key_missing_witness :
    AnthropicChatbot.make none ChatbotConfig.default
        = .error "ANTHROPIC_API_KEY environment variable is required"
    ∧ ∃ bot, AnthropicChatbot.make (some "k") ChatbotConfig.default = .ok bot := by
  refine ⟨(c5_construction_fails_iff_key_missing none ChatbotConfig.default).1.mpr
      (Or.inl rfl),
    (c5_construction_fails_iff_key_missing (some "k") ChatbotConfig.default).2.mpr ?_⟩
  rintro (h | h) <;> simp at h

/-- C6 (the claim is right, the code is not): when streamlit cannot be
imported, the module-level `import streamlit as st` on line 6 terminates
the process with an uncaught ImportError before the `__main__`
`try`/`except ImportError` fallback can run, so the terminal front end is
not reached; the fallback works only for exceptions raised by `main()`
after the module has loaded. -/
theorem c6_import_failure_is_uncaught :
    startup false false = .uncaughtImportError
    ∧ startup false true = .uncaughtImportError
    ∧ startup true true = .ranTerminal
    ∧ startup true false = .ranWidget :=
  ⟨rfl, rfl, rfl, rfl⟩

/-- C3: the assembled sequence is the system-role message first (present
even when the instruction is empty), then the transcript turns in original
order mapped role-for-role, then exactly one trailing user-role message
holding the new text; with the claim's two concrete instances. -/
theorem c3_assemble_order (sys t : String) (h : List Msg)
    (hroles : ∀ m ∈ h, m.role = "user" ∨ m.role = "assistant") :
    assembleMessages sys h t
        = .system sys :: (h.map rolePreservingMsg ++ [.human t])
    ∧ assembleMessages sys [] t = [.system sys, .human t]
    ∧ assembleMessages sys [⟨"user", "a"⟩, ⟨"assistant", "b"⟩] "c"
        = [.system sys, .human "a", .ai "b", .human "c"] := by
  refine ⟨?_, rfl, ?_⟩
  · unfold assembleMessages
    rw [convertHistory_eq_rolePreserving h hroles]
  · simp [assembleMessages, convertHistory]

/-- Witness for C3: sys "s", history [user "a", assistant "b"], text "c". -/
theorem c3_assemble_order_witness :
    assembleMessages "s" [⟨"user", "a"⟩, ⟨"assistant", "b"⟩] "c"
      = .system "s" ::
          ([⟨"user", "a"⟩, ⟨"assistant", "b"⟩].map rolePreservingMsg ++ [.human "c"]) :=
  (c3_assemble_order "s" "c" [⟨"user", "a"⟩, ⟨"assistant", "b"⟩] (by decide)).1

/-- C4 counterexample: whitespace-only input is not a no-op in the widget
variant: the handler's walrus test rejects only falsy (empty) input and
never trims, so " " is submitted, the model is invoked, and two turns are
appended to the transcript. -/
theorem c4_counterexample :
    (widgetSubmit sampleBot (fun _ => .ok "r") [] (some " ")).1
      = [⟨"user", " "⟩, ⟨"assistant", "r"⟩]
    ∧ (widgetSubmit sampleBot (fun _ => .ok "r") [] (some " ")).1 ≠ [] :=
  ⟨rfl, by decide⟩

/-- C4 amended: empty input is a no-op in both variants (transcript
unchanged, model not invoked, no error surfaced); whitespace-only input is
a no-op in the terminal variant, which strips its input, but the widget
variant submits any non-empty text, including whitespace-only text. -/
theorem c4_empty_input_noop (bot : AnthropicChatbot) (invoke : Invoker)
    (messages chat_history : List Msg) (t : String) (hws : pyStrip t = "") :
    widgetSubmit bot invoke messages none = (messages, .nothing)
    ∧ widgetSubmit bot invoke messages (some "") = (messages, .nothing)
    ∧ cliStep bot invoke chat_history t = (chat_history, .skipped) := by
  refine ⟨rfl, rfl, ?_⟩
  have h1 : pyLower "" = "" := rfl
  simp [cliStep, hws, h1]

/-- Witness for C4 amended: the tab-and-space input on a sample session. -/
theorem c4_empty_input_noop_witness :
    widgetSubmit sampleBot (fun _ => .ok "r") [] none = ([], .nothing)
    ∧ cliStep sampleBot (fun _ => .ok "r") [] " \t " = ([], .skipped) := by
  have h := c4_empty_input_noop sampleBot (fun _ => .ok "r") [] [] " \t " (by decide)
  exact ⟨h.1, h.2.2⟩

/-- C7 counterexample: the widget variant does not treat "clear" as a
reserved command: entering it performs a submit — a user turn holding
"clear" and an assistant turn are appended — and the transcript is not
cleared. -/
theorem c7_counterexample :
    (widgetSubmit sampleBot (fun _ => .ok "r")
        [⟨"user", "x"⟩, ⟨"assistant", "y"⟩] (some "clear")).1
      = [⟨"user", "x"⟩, ⟨"assistant", "y"⟩, ⟨"user", "clear"⟩, ⟨"assistant", "r"⟩] :=
  rfl

/-- C7 amended: only the terminal variant recognizes the two reserved
commands, case-insensitively on the stripped input — "clear" empties the
history without submitting, "quit" ends the loop without submitting, and
any other non-empty input is submitted; the widget variant has no reserved
text commands (any truthy input, including "clear" and "quit", is
submitted) and offers clearing through the separate sidebar button. -/
theorem c7_reserved_commands (bot : AnthropicChatbot) (invoke : Invoker)
    (messages chat_history : List Msg) (t r : String) :
    (pyLower (pyStrip t) = "clear" →
      cliStep bot invoke chat_history t = ([], .cleared))
    ∧ (pyLower (pyStrip t) = "quit" →
      cliStep bot invoke chat_history t = (chat_history, .quit))
    ∧ (pyStrip t ≠ "" → pyLower (pyStrip t) ≠ "quit" → pyLower (pyStrip t) ≠ "clear" →
      (cliStep bot (fun _ => .ok r) chat_history t).1
        = chat_history ++ [⟨"user", pyStrip t⟩, ⟨"assistant", r⟩])
    ∧ (∀ p : String, p ≠ "" →
      (widgetSubmit bot (fun _ => .ok r) messages (some p)).1
        = messages ++ [⟨"user", p⟩, ⟨"assistant", r⟩])
    ∧ widgetClear messages = [] := by
  refine ⟨fun hcl => ?_, fun hqu => ?_, fun hne hq hc => ?_, fun p hp => ?_, rfl⟩
  · rw [cliStep, if_neg (by rw [hcl]; decide), if_pos hcl]
  · rw [cliStep, if_pos hqu]
  · simp [cliStep, get_response, hne, hq, hc]
  · simp [widgetSubmit, get_response, hp]

/-- Witness for C7 amended: " CLEAR " and "Quit" on the terminal variant,
"hi" submitted on both, "clear" submitted on the widget variant. -/
theorem c7_reserved_commands_witness :
    cliStep sampleBot (fun _ => .ok "r") [⟨"user", "x"⟩, ⟨"assistant", "y"⟩] " CLEAR "
        = ([], .cleared)
    ∧ cliStep sampleBot (fun _ => .ok "r") [⟨"user", "x"⟩, ⟨"assistant", "y"⟩] "Quit"
        = ([⟨"user", "x"⟩, ⟨"assistant", "y"⟩], .quit)
    ∧ (cliStep sampleBot (fun _ => .ok "r") [] "hi").1
        = [⟨"user", "hi"⟩, ⟨"assistant", "r"⟩]
    ∧ (widgetSubmit sampleBot (fun _ => .ok "r") [] (some "quit")).1
        = [⟨"user", "quit"⟩, ⟨"assistant", "r"⟩]
    ∧ widgetClear [⟨"user", "x"⟩] = [] := by
  have hA := c7_reserved_commands sampleBot (fun _ => Except.ok "r")
      [] [⟨"user", "x"⟩, ⟨"assistant", "y"⟩] " CLEAR " "r"
  have hB := c7_reserved_commands sampleBot (fun _ => Except.ok "r")
      [] [⟨"user", "x"⟩, ⟨"assistant", "y"⟩] "Quit" "r"
  have hC := c7_reserved_commands sampleBot (fun _ => Except.ok "r")
      [] [] "hi" "r"
  have hD := c7_reserved_commands sampleBot (fun _ => Except.ok "r")
      [⟨"user", "x"⟩] [] "hi" "r"
  refine ⟨hA.1 (by decide), hB.2.1 (by decide), ?_, ?_, hD.2.2.2.2⟩
  · have h3 := hC.2.2.1 (by decide) (by decide) (by decide)
    rw [show pyStrip "hi" = "hi" from rfl] at h3
    simpa using h3
  · have h4 := hC.2.2.2.1 "quit" (by decide)
    simpa using h4

/-- C8: clearing always succeeds and is idempotent in both variants: one
clear empties the transcript, a second consecutive clear leaves the same
state, and a submit on the cleared session is the very same operation as
the first submit of a fresh session with the same configuration (whose
history is `cliInitialHistory = []`). -/
theorem c8_clear_idempotent (bot : AnthropicChatbot) (invoke : Invoker)
    (chat_history messages : List Msg) (t : String) (p : Option String) :
    (cliStep bot invoke chat_history "clear").1 = []
    ∧ (cliStep bot invoke (cliStep bot invoke chat_history "clear").1 "clear").1
        = (cliStep bot invoke chat_history "clear").1
    ∧ widgetClear messages = []
    ∧ widgetClear (widgetClear messages) = widgetClear messages
    ∧ cliStep bot invoke (cliStep bot invoke chat_history "clear").1 t
        = cliStep bot invoke cliInitialHistory t
    ∧ widgetSubmit bot invoke (widgetClear messages) p
        = widgetSubmit bot invoke [] p :=
  ⟨rfl, rfl, rfl, rfl, rfl, rfl⟩

/-- C9: one submit step and one clear leave the bot — and with it every
field of the session configuration (model identifier, temperature, max
output tokens, system instruction) and the credential held by the client —
unchanged in both variants; only the transcript component of the session
is updated. -/
theorem c9_config_unchanged (s : CLISession) (w : WidgetSession)
    (invoke : Invoker) (raw_input : String) (p : Option String) :
    (s.step invoke raw_input).1.bot = s.bot
    ∧ (s.step invoke raw_input).1.bot.config.model_name = s.bot.config.model_name
    ∧ (s.step invoke raw_input).1.bot.config.temperature = s.bot.config.temperature
    ∧ (s.step invoke raw_input).1.bot.config.max_tokens = s.bot.config.max_tokens
    ∧ (s.step invoke raw_input).1.bot.config.system_prompt = s.bot.config.system_prompt
    ∧ (s.step invoke raw_input).1.bot.llm.anthropic_api_key
        = s.bot.llm.anthropic_api_key
    ∧ (w.step invoke p).1.bot = w.bot
    ∧ w.clearButton.bot = w.bot :=
  ⟨rfl, rfl, rfl, rfl, rfl, rfl, rfl, rfl⟩

/-- Appending one user/assistant pair at the end preserves the
alternation invariant. -/
theorem evenAlt_append_pair (u a : String) (h : List Msg)
    (hh : evenAlt h = true) :
    evenAlt (h ++ [⟨"user", u⟩, ⟨"assistant", a⟩]) = true := by
  induction h using evenAlt.induct with
  | case1 => simp [evenAlt]
  | case2 u1 a1 rest ih =>
    simp only [evenAlt, Bool.and_eq_true, beq_iff_eq] at hh
    simp only [List.cons_append, evenAlt, Bool.and_eq_true, beq_iff_eq]
    exact ⟨⟨hh.1.1, hh.1.2⟩, ih hh.2⟩
  | case3 x => simp [evenAlt] at hh

/-- A history satisfying the alternation invariant has even length. -/
theorem evenAlt_even_length (h : List Msg) (hh : evenAlt h = true) :
    2 ∣ h.length := by
  induction h using evenAlt.induct with
  | case1 => simp
  | case2 u1 a1 rest ih =>
    simp only [evenAlt, Bool.and_eq_true] at hh
    have := ih hh.2
    simp only [List.length_cons]
    omega
  | case3 x => simp [evenAlt] at hh

/-- One CLI loop iteration preserves the alternation invariant: the only
branch that extends the history appends a user/assistant pair after a
successful call, and clear resets it to the empty list. -/
theorem cliStep_preserves_evenAlt (bot : AnthropicChatbot) (invoke : Invoker)
    (h : List Msg) (raw_input : String) (hh : evenAlt h = true) :
    evenAlt (cliStep bot invoke h raw_input).1 = true := by
  by_cases h1 : pyLower (pyStrip raw_input) = "quit"
  · simpa [cliStep, h1] using hh
  by_cases h2 : pyLower (pyStrip raw_input) = "clear"
  · simp [cliStep, h1, h2, evenAlt]
  by_cases h3 : pyStrip raw_input = ""
  · simpa [cliStep, h1, h2, h3] using hh
  rcases hres : get_response bot invoke (pyStrip raw_input) (some h) with e | r
  · simpa [cliStep, h1, h2, h3, hres] using hh
  · simp only [cliStep, h1, h2, h3, hres, if_false, if_neg]
    simpa [cliStep, h1, h2, h3, hres] using evenAlt_append_pair (pyStrip raw_input) r h hh

/-- Running the CLI loop from a history satisfying the invariant keeps it
satisfied. -/
theorem cliRun_preserves_evenAlt (bot : AnthropicChatbot)
    (evs : List CLIEvent) :
    ∀ h : List Msg, evenAlt h = true → evenAlt (cliRun bot evs h) = true := by
  induction evs with
  | nil => exact fun h hh => hh
  | cons e rest ih =>
    intro h hh
    have hstep := cliStep_preserves_evenAlt bot e.2 h e.1 hh
    rcases hact : cliStep bot e.2 h e.1 with ⟨h1, act⟩
    rw [hact] at hstep
    cases act <;> simp only [cliRun, hact] <;>
      first
        | exact hstep
        | exact ih h1 hstep

/-- C10: for every sequence of loop events (input lines together with the
model call's behaviour in that iteration), the terminal front end's
history at the start of the next iteration satisfies the alternation
invariant — it is a sequence of user/assistant pairs starting with a user
turn (or empty) — and therefore has even length; the history is only ever
extended by appending such a pair after a successful call. -/
theorem c10_cli_history_alternates (bot : AnthropicChatbot)
    (evs : List CLIEvent) :
    evenAlt (cliRun bot evs cliInitialHistory) = true
    ∧ 2 ∣ (cliRun bot evs cliInitialHistory).length := by
  have h := cliRun_preserves_evenAlt bot evs cliInitialHistory rfl
  exact ⟨h, evenAlt_even_length _ h⟩
